import Mathlib

/-!
Verification of the command-forwarding client in
`src/tools/claude_tool_stub.py` (function `ios_debug_command`).

The function builds a JSON payload from an action tag and optional
fields, validating per-action required fields, then issues a single
HTTP POST and decodes the response.  We embed the payload-building
logic as a pure function into `Except`, and the whole invocation as a
function parameterised by a network oracle, returning both the result
and the list of HTTP requests that were issued.
-/

/-- A JSON-compatible scalar value appearing in the request payload:
the Python code only ever stores strings (`action`, `file`,
`expression`) and integers (`line`, `variablesReference`, `threadId`). -/
inductive JVal where
  | s (v : String)
  | i (v : Int)
deriving DecidableEq, Repr

/-- The payload is a Python `dict` built by insertion; we model it as an
insertion-ordered association list. -/
abbrev Payload := List (String × JVal)

/-- The optional keyword arguments of `ios_debug_command` that feed the
payload (`file`, `line`, `expression`, `variables_reference`,
`thread_id`), each `None` by default. -/
structure Fields where
  file : Option String := none
  line : Option Int := none
  expression : Option String := none
  variablesReference : Option Int := none
  threadId : Option Int := none
deriving DecidableEq, Repr

/-- First `if` block of `ios_debug_command`:
`if action == "set_breakpoint": if not file or line is None: raise
ValueError(...); payload["file"] = file; payload["line"] = line`.
Python truthiness makes `not file` true for both `None` and `""`. -/
def step_set_breakpoint (action : String) (f : Fields) (p : Payload) :
    Except String Payload :=
  if action = "set_breakpoint" then
    match f.file, f.line with
    | some fl, some ln =>
        if fl = "" then Except.error "set_breakpoint requires --file and --line"
        else Except.ok (p ++ [("file", JVal.s fl), ("line", JVal.i ln)])
    | _, _ => Except.error "set_breakpoint requires --file and --line"
  else Except.ok p

/-- Second `if` block:
`if action in {"evaluate", "evaluate_swift", "watch_expr"}: if not
expression: raise ValueError(f"{action} requires --expression");
payload["expression"] = expression`. -/
def step_expression (action : String) (f : Fields) (p : Payload) :
    Except String Payload :=
  if action = "evaluate" ∨ action = "evaluate_swift" ∨ action = "watch_expr" then
    match f.expression with
    | some e =>
        if e = "" then Except.error (action ++ " requires --expression")
        else Except.ok (p ++ [("expression", JVal.s e)])
    | none => Except.error (action ++ " requires --expression")
  else Except.ok p

/-- Third `if` block:
`if action == "variables" and variables_reference is not None:
payload["variablesReference"] = variables_reference`.  This block can
never raise, so it is a pure payload transformer. -/
def step_variables (action : String) (f : Fields) (p : Payload) : Payload :=
  if action = "variables" then
    match f.variablesReference with
    | some v => p ++ [("variablesReference", JVal.i v)]
    | none => p
  else p

/-- Fourth `if` block:
`if action == "select_thread": if thread_id is None: raise
ValueError("select_thread requires --thread-id");
payload["threadId"] = thread_id`. -/
def step_select_thread (action : String) (f : Fields) (p : Payload) :
    Except String Payload :=
  if action = "select_thread" then
    match f.threadId with
    | some t => Except.ok (p ++ [("threadId", JVal.i t)])
    | none => Except.error "select_thread requires --thread-id"
  else Except.ok p

/-- The payload-building prefix of `ios_debug_command`: starts from
`payload = {"action": action}` and runs the four `if` blocks in the
source order, propagating the first `ValueError`. -/
def ios_debug_build (action : String) (f : Fields) : Except String Payload :=
  match step_set_breakpoint action f [("action", JVal.s action)] with
  | Except.error e => Except.error e
  | Except.ok p1 =>
    match step_expression action f p1 with
    | Except.error e => Except.error e
    | Except.ok p2 => step_select_thread action f (step_variables action f p2)


/-- A JSON document, as decoded by `resp.json()`: the remote service's
response is opaque pass-through data (the spec's `CommandResult`). -/
inductive Json where
  | null
  | bool (b : Bool)
  | num (n : Int)
  | str (s : String)
  | arr (elems : List Json)
  | obj (members : List (String × Json))

/-- The endpoint parameters of `ios_debug_command`: `host` (default
`"127.0.0.1"`), `port` (default `4000`) and `timeout` (default `5.0`
seconds, passed to `requests.post` unchanged). -/
structure Endpoint where
  host : String
  port : Int
  timeout : Float

/-- One HTTP POST as issued by `requests.post(url, json=payload, ...)`:
the target URL and the JSON body. -/
structure HttpRequest where
  url : String
  body : Payload

/-- The URL the source posts to: `f"http://{host}:{port}/command"`. -/
def commandUrl (ep : Endpoint) : String :=
  "http://" ++ ep.host ++ ":" ++ toString ep.port ++ "/command"

/-- What the network can do with one POST: deliver a response (with a
status code and, when the body is valid JSON, its decoded value), time
out, or fail to connect. -/
inductive NetOutcome where
  | response (status : Nat) (decoded : Option Json)
  | timeout
  | connFailure

/-- The error taxonomy of the call: `validation` is the `ValueError`
raised by the builder; the rest are transport/decoding failures
(`requests.HTTPError` from `raise_for_status`, `requests.Timeout`,
`requests.ConnectionError`, `json.JSONDecodeError`). -/
inductive DebugError where
  | validation (msg : String)
  | httpStatus (status : Nat) (detail : Option Json)
  | timeout
  | connectionFailure
  | decoding

/-- Models `requests.Response.raise_for_status` from the `requests`
library used by the source: it raises `HTTPError` exactly for
client-error (4xx) and server-error (5xx) status codes; informational,
successful and redirect statuses (e.g. `304 Not Modified`) do not
raise. -/
def raise_for_status_raises (status : Nat) : Bool :=
  decide (400 ≤ status) && decide (status < 600)

/-- The tail of `ios_debug_command` after `requests.post` returns or
throws: `resp.raise_for_status()` then `return resp.json()`. -/
def handleResponse (out : NetOutcome) : Except DebugError Json :=
  match out with
  | NetOutcome.timeout => Except.error DebugError.timeout
  | NetOutcome.connFailure => Except.error DebugError.connectionFailure
  | NetOutcome.response status decoded =>
    if raise_for_status_raises status then
      Except.error (DebugError.httpStatus status decoded)
    else
      match decoded with
      | some j => Except.ok j
      | none => Except.error DebugError.decoding

/-- The whole of `ios_debug_command`, parameterised by a network oracle
`net` standing for the remote service: build the payload (raising
`ValueError` before any network activity), then issue the single POST
and decode.  The second component records every HTTP request issued
during the call, so that absence of network activity is expressible. -/
def ios_debug_command (net : Endpoint → HttpRequest → NetOutcome)
    (action : String) (f : Fields) (ep : Endpoint) :
    Except DebugError Json × List HttpRequest :=
  match ios_debug_build action f with
  | Except.error msg => (Except.error (DebugError.validation msg), [])
  | Except.ok payload =>
    let req : HttpRequest := { url := commandUrl ep, body := payload }
    (handleResponse (net ep req), [req])

/-- Modelled from the spec: the amended required-field condition.  A
required field for the action is missing when it is absent, or — for the
string-valued required fields `file` and `expression` — when it is
supplied as the empty string (which Python truthiness treats as
missing). -/
def missingRequiredField (action : String) (f : Fields) : Prop :=
  (action = "set_breakpoint" ∧ (f.file = none ∨ f.file = some "" ∨ f.line = none)) ∨
  ((action = "evaluate" ∨ action = "evaluate_swift" ∨ action = "watch_expr") ∧
      (f.expression = none ∨ f.expression = some "")) ∨
  (action = "select_thread" ∧ f.threadId = none)

/-- The keys of a payload, in insertion order. -/
def keys (p : Payload) : List String := p.map Prod.fst

/-- Modelled from the spec: the shape invariant of a built request.  It
always carries `action` with the given action value; only the six
documented keys ever appear; and each conditional key is present exactly
when it was supplied by the caller and is relevant to the action. -/
def PayloadShape (action : String) (f : Fields) (p : Payload) : Prop :=
  ("action", JVal.s action) ∈ p ∧
  (∀ k ∈ keys p, k = "action" ∨ k = "file" ∨ k = "line" ∨ k = "expression" ∨
      k = "variablesReference" ∨ k = "threadId") ∧
  ("file" ∈ keys p ↔ action = "set_breakpoint" ∧ f.file.isSome = true) ∧
  ("line" ∈ keys p ↔ action = "set_breakpoint" ∧ f.line.isSome = true) ∧
  ("expression" ∈ keys p ↔
      (action = "evaluate" ∨ action = "evaluate_swift" ∨ action = "watch_expr") ∧
        f.expression.isSome = true) ∧
  ("variablesReference" ∈ keys p ↔
      action = "variables" ∧ f.variablesReference.isSome = true) ∧
  ("threadId" ∈ keys p ↔ action = "select_thread" ∧ f.threadId.isSome = true)

/-- A caller supplying every optional field at once. -/
def fieldsAll : Fields :=
  { file := some "a.swift", line := some 3, expression := some "x+1",
    variablesReference := some 1, threadId := some 2 }

/-- A caller supplying `file` as the empty string together with a line. -/
def emptyFileFields : Fields := { file := some "", line := some 7 }

/-- A caller supplying `expression` as the empty string. -/
def emptyExprFields : Fields := { expression := some "" }

/-- A concrete endpoint (the source's defaults). -/
def ep0 : Endpoint := { host := "127.0.0.1", port := 4000, timeout := 5.0 }

/-- An always-healthy remote service answering 200 with an empty object. -/
def netOk : Endpoint → HttpRequest → NetOutcome :=
  fun _ _ => NetOutcome.response 200 (some (Json.obj []))

/-- A remote service answering `304 Not Modified` with a JSON body. -/
def net304 : Endpoint → HttpRequest → NetOutcome :=
  fun _ _ => NetOutcome.response 304 (some (Json.obj []))

/-- A remote service answering HTTP 500 with body `{"error":"boom"}`. -/
def net500 : Endpoint → HttpRequest → NetOutcome :=
  fun _ _ => NetOutcome.response 500 (some (Json.obj [("error", Json.str "boom")]))

/-- A caller asking for `evaluate` with the empty expression plus stray
`file` and `line`. -/
def emptyExprWithFileFields : Fields :=
  { expression := some "", file := some "b.swift", line := some 4 }

/-- C3 counterexample: with `expression` supplied as the empty string
(and `file`/`line` also supplied), `evaluate` raises via
`if not expression` instead of building
`{action: "evaluate", expression: ""}` — so "with expression supplied,
the built request equals exactly {action, expression}" fails at this
input: no request is built at all. -/
theorem evaluate_empty_expression_not_built :
    emptyExprWithFileFields.expression = some "" ∧
    emptyExprWithFileFields.file = some "b.swift" ∧
    emptyExprWithFileFields.line = some 4 ∧
    ios_debug_build "evaluate" emptyExprWithFileFields =
      Except.error "evaluate requires --expression" :=
  ⟨rfl, rfl, rfl, rfl⟩

/-- C3 (amended): for action `evaluate` with `expression` supplied
non-empty, the built request is exactly
`{action: "evaluate", expression: <expression>}`, even when the caller
also supplies `file` and/or `line` — irrelevant fields are dropped;
with `expression` supplied empty, build raises instead. -/
theorem evaluate_nonempty_payload_exact (f : Fields) (e : String)
    (he : f.expression = some e) (hz : e ≠ "") :
    ios_debug_build "evaluate" f =
      Except.ok [("action", JVal.s "evaluate"), ("expression", JVal.s e)] := by
  simp [ios_debug_build, step_set_breakpoint, step_expression, step_variables,
    step_select_thread, he, hz]

/-- Witness for C3: `evaluate` with `expression="x+1"` and stray
`file`/`line` supplied builds exactly the two-key request. -/
theorem evaluate_nonempty_payload_exact_witness :
    ios_debug_build "evaluate" fieldsAll =
      Except.ok [("action", JVal.s "evaluate"), ("expression", JVal.s "x+1")] :=
  evaluate_nonempty_payload_exact fieldsAll "x+1" rfl (by decide)

/-- C4 counterexample: `set_breakpoint` with `file` and `line` both
supplied, but `file = ""`, is rejected (`not file` is true for the empty
string in Python), so the built request does not exist, contrary to the
claim that supplying both fields always yields the three-key request. -/
theorem set_breakpoint_empty_file_rejected :
    emptyFileFields.file = some "" ∧ emptyFileFields.line = some 7 ∧
    ios_debug_build "set_breakpoint" emptyFileFields =
      Except.error "set_breakpoint requires --file and --line" :=
  ⟨rfl, rfl, rfl⟩

/-- C4 (amended): for `set_breakpoint` with `file` supplied non-empty and
`line` supplied, the built request is exactly
`{action: "set_breakpoint", file: <file>, line: <line>}`. -/
theorem set_breakpoint_payload_exact (f : Fields) (fl : String) (ln : Int)
    (hf : f.file = some fl) (hl : f.line = some ln) (hne : fl ≠ "") :
    ios_debug_build "set_breakpoint" f =
      Except.ok [("action", JVal.s "set_breakpoint"), ("file", JVal.s fl),
        ("line", JVal.i ln)] := by
  simp [ios_debug_build, step_set_breakpoint, step_expression, step_variables,
    step_select_thread, hf, hl, hne]

/-- Witness for C4: `file="a.swift"`, `line=10`. -/
theorem set_breakpoint_payload_exact_witness :
    ios_debug_build "set_breakpoint" { file := some "a.swift", line := some 10 } =
      Except.ok [("action", JVal.s "set_breakpoint"), ("file", JVal.s "a.swift"),
        ("line", JVal.i 10)] :=
  set_breakpoint_payload_exact _ "a.swift" 10 rfl rfl (by decide)

/-- C5: action `variables` never fails: with no `variablesReference` the
request is exactly `{action: "variables"}`, and with `variablesReference`
supplied it is exactly `{action: "variables", variablesReference: <v>}`. -/
theorem variables_never_fails (f : Fields) :
    (f.variablesReference = none →
      ios_debug_build "variables" f = Except.ok [("action", JVal.s "variables")]) ∧
    (∀ v : Int, f.variablesReference = some v →
      ios_debug_build "variables" f =
        Except.ok [("action", JVal.s "variables"), ("variablesReference", JVal.i v)]) := by
  constructor
  · intro h
    simp [ios_debug_build, step_set_breakpoint, step_expression, step_variables,
      step_select_thread, h]
  · intro v h
    simp [ios_debug_build, step_set_breakpoint, step_expression, step_variables,
      step_select_thread, h]

/-- Witness for C5: both the absent and the `variablesReference=5` case. -/
theorem variables_never_fails_witness :
    ios_debug_build "variables" {} = Except.ok [("action", JVal.s "variables")] ∧
    ios_debug_build "variables" { variablesReference := some 5 } =
      Except.ok [("action", JVal.s "variables"), ("variablesReference", JVal.i 5)] :=
  ⟨(variables_never_fails {}).1 rfl,
   (variables_never_fails { variablesReference := some 5 }).2 5 rfl⟩

/-- C6: any action outside the six specially handled values builds with
no required-field check, and the request is exactly `{action: <action>}`
whatever fields were supplied. -/
theorem unrecognized_action_passthrough (action : String) (f : Fields)
    (h1 : action ≠ "set_breakpoint") (h2 : action ≠ "evaluate")
    (h3 : action ≠ "evaluate_swift") (h4 : action ≠ "watch_expr")
    (h5 : action ≠ "variables") (h6 : action ≠ "select_thread") :
    ios_debug_build action f = Except.ok [("action", JVal.s action)] := by
  simp [ios_debug_build, step_set_breakpoint, step_expression, step_variables,
    step_select_thread, h1, h2, h3, h4, h5, h6]

/-- Witness for C6: action `"foo"` with every field supplied. -/
theorem unrecognized_action_passthrough_witness :
    ios_debug_build "foo" fieldsAll = Except.ok [("action", JVal.s "foo")] :=
  unrecognized_action_passthrough "foo" fieldsAll (by decide) (by decide)
    (by decide) (by decide) (by decide) (by decide)

/-- C9: integer fields equal to 0 count as supplied (presence is tested
against `None`, not truthiness): `line=0`, `threadId=0` and
`variablesReference=0` all succeed and are carried in the payload. -/
theorem zero_integer_fields_supplied (fl : String) (hne : fl ≠ "") :
    ios_debug_build "set_breakpoint" { file := some fl, line := some 0 } =
      Except.ok [("action", JVal.s "set_breakpoint"), ("file", JVal.s fl),
        ("line", JVal.i 0)] ∧
    ios_debug_build "select_thread" { threadId := some 0 } =
      Except.ok [("action", JVal.s "select_thread"), ("threadId", JVal.i 0)] ∧
    ios_debug_build "variables" { variablesReference := some 0 } =
      Except.ok [("action", JVal.s "variables"), ("variablesReference", JVal.i 0)] := by
  refine ⟨?_, rfl, rfl⟩
  simp [ios_debug_build, step_set_breakpoint, step_expression, step_variables,
    step_select_thread, hne]

/-- Witness for C9: a non-empty file name. -/
theorem zero_integer_fields_supplied_witness :
    ios_debug_build "set_breakpoint" { file := some "a.swift", line := some 0 } =
      Except.ok [("action", JVal.s "set_breakpoint"), ("file", JVal.s "a.swift"),
        ("line", JVal.i 0)] ∧
    ios_debug_build "select_thread" { threadId := some 0 } =
      Except.ok [("action", JVal.s "select_thread"), ("threadId", JVal.i 0)] ∧
    ios_debug_build "variables" { variablesReference := some 0 } =
      Except.ok [("action", JVal.s "variables"), ("variablesReference", JVal.i 0)] :=
  zero_integer_fields_supplied "a.swift" (by decide)

/-- C1 counterexample: for `evaluate` the expression is supplied (as the
empty string), yet build raises, so "ValidationError iff a required
field is absent" fails in the right-to-left direction: every required
field is supplied and build still fails. -/
theorem evaluate_empty_expression_rejected :
    emptyExprFields.expression = some "" ∧
    ios_debug_build "evaluate" emptyExprFields =
      Except.error "evaluate requires --expression" :=
  ⟨rfl, rfl⟩

/-- C1 (amended): build fails exactly when a required field for the
action is missing, where the string-valued required fields `file` and
`expression` also count as missing when supplied empty (Python
truthiness); in all other cases build succeeds. -/
theorem build_fails_iff_missing (action : String) (f : Fields) :
    (ios_debug_build action f).isOk = false ↔ missingRequiredField action f := by
  by_cases h1 : action = "set_breakpoint"
  · subst h1
    cases hf : f.file with
    | none =>
        simp [ios_debug_build, step_set_breakpoint, missingRequiredField, hf,
          Except.isOk, Except.toBool]
    | some s =>
        cases hl : f.line with
        | none =>
            simp [ios_debug_build, step_set_breakpoint, missingRequiredField, hf,
              hl, Except.isOk, Except.toBool]
        | some ln =>
            by_cases hs : s = ""
            · subst hs
              simp [ios_debug_build, step_set_breakpoint, missingRequiredField,
                hf, hl, Except.isOk, Except.toBool]
            · simp [ios_debug_build, step_set_breakpoint, step_expression,
                step_variables, step_select_thread, missingRequiredField, hf, hl,
                hs, Except.isOk, Except.toBool]
  · by_cases h2 : action = "evaluate"
    · subst h2
      cases he : f.expression with
      | none =>
          simp [ios_debug_build, step_set_breakpoint, step_expression,
            missingRequiredField, he, Except.isOk, Except.toBool]
      | some e =>
          by_cases hz : e = ""
          · subst hz
            simp [ios_debug_build, step_set_breakpoint, step_expression,
              missingRequiredField, he, Except.isOk, Except.toBool]
          · simp [ios_debug_build, step_set_breakpoint, step_expression,
              step_variables, step_select_thread, missingRequiredField, he, hz,
              Except.isOk, Except.toBool]
    · by_cases h3 : action = "evaluate_swift"
      · subst h3
        cases he : f.expression with
        | none =>
            simp [ios_debug_build, step_set_breakpoint, step_expression,
              missingRequiredField, he, Except.isOk, Except.toBool]
        | some e =>
            by_cases hz : e = ""
            · subst hz
              simp [ios_debug_build, step_set_breakpoint, step_expression,
                missingRequiredField, he, Except.isOk, Except.toBool]
            · simp [ios_debug_build, step_set_breakpoint, step_expression,
                step_variables, step_select_thread, missingRequiredField, he, hz,
                Except.isOk, Except.toBool]
      · by_cases h4 : action = "watch_expr"
        · subst h4
          cases he : f.expression with
          | none =>
              simp [ios_debug_build, step_set_breakpoint, step_expression,
                missingRequiredField, he, Except.isOk, Except.toBool]
          | some e =>
              by_cases hz : e = ""
              · subst hz
                simp [ios_debug_build, step_set_breakpoint, step_expression,
                  missingRequiredField, he, Except.isOk, Except.toBool]
              · simp [ios_debug_build, step_set_breakpoint, step_expression,
                  step_variables, step_select_thread, missingRequiredField, he,
                  hz, Except.isOk, Except.toBool]
        · by_cases h5 : action = "variables"
          · subst h5
            cases hv : f.variablesReference with
            | none =>
                simp [ios_debug_build, step_set_breakpoint, step_expression,
                  step_variables, step_select_thread, missingRequiredField, hv,
                  Except.isOk, Except.toBool]
            | some v =>
                simp [ios_debug_build, step_set_breakpoint, step_expression,
                  step_variables, step_select_thread, missingRequiredField, hv,
                  Except.isOk, Except.toBool]
          · by_cases h6 : action = "select_thread"
            · subst h6
              cases ht : f.threadId with
              | none =>
                  simp [ios_debug_build, step_set_breakpoint, step_expression,
                    step_variables, step_select_thread, missingRequiredField, ht,
                    Except.isOk, Except.toBool]
              | some t =>
                  simp [ios_debug_build, step_set_breakpoint, step_expression,
                    step_variables, step_select_thread, missingRequiredField, ht,
                    Except.isOk, Except.toBool]
            · simp [ios_debug_build, step_set_breakpoint, step_expression,
                step_variables, step_select_thread, missingRequiredField, h1, h2,
                h3, h4, h5, h6, Except.isOk, Except.toBool]

/-- C2: every successfully built request always carries
`("action", action)`; only the six documented keys ever appear; and each
conditional key is present exactly when supplied by the caller and
relevant to the action. -/
theorem build_payload_shape (action : String) (f : Fields) (p : Payload)
    (hok : ios_debug_build action f = Except.ok p) :
    PayloadShape action f p := by
  by_cases h1 : action = "set_breakpoint"
  · subst h1
    cases hf : f.file with
    | none => simp [ios_debug_build, step_set_breakpoint, hf] at hok
    | some s =>
      cases hl : f.line with
      | none => simp [ios_debug_build, step_set_breakpoint, hf, hl] at hok
      | some ln =>
        by_cases hs : s = ""
        · subst hs
          simp [ios_debug_build, step_set_breakpoint, hf, hl] at hok
        · simp [ios_debug_build, step_set_breakpoint, step_expression,
            step_variables, step_select_thread, hf, hl, hs] at hok
          subst hok
          simp [PayloadShape, keys, hf, hl]
  · by_cases h2 : action = "evaluate"
    · subst h2
      cases he : f.expression with
      | none => simp [ios_debug_build, step_set_breakpoint, step_expression, he] at hok
      | some e =>
        by_cases hz : e = ""
        · subst hz
          simp [ios_debug_build, step_set_breakpoint, step_expression, he] at hok
        · simp [ios_debug_build, step_set_breakpoint, step_expression,
            step_variables, step_select_thread, he, hz] at hok
          subst hok
          simp [PayloadShape, keys, he]
    · by_cases h3 : action = "evaluate_swift"
      · subst h3
        cases he : f.expression with
        | none => simp [ios_debug_build, step_set_breakpoint, step_expression, he] at hok
        | some e =>
          by_cases hz : e = ""
          · subst hz
            simp [ios_debug_build, step_set_breakpoint, step_expression, he] at hok
          · simp [ios_debug_build, step_set_breakpoint, step_expression,
              step_variables, step_select_thread, he, hz] at hok
            subst hok
            simp [PayloadShape, keys, he]
      · by_cases h4 : action = "watch_expr"
        · subst h4
          cases he : f.expression with
          | none => simp [ios_debug_build, step_set_breakpoint, step_expression, he] at hok
          | some e =>
            by_cases hz : e = ""
            · subst hz
              simp [ios_debug_build, step_set_breakpoint, step_expression, he] at hok
            · simp [ios_debug_build, step_set_breakpoint, step_expression,
                step_variables, step_select_thread, he, hz] at hok
              subst hok
              simp [PayloadShape, keys, he]
        · by_cases h5 : action = "variables"
          · subst h5
            cases hv : f.variablesReference with
            | none =>
              simp [ios_debug_build, step_set_breakpoint, step_expression,
                step_variables, step_select_thread, hv] at hok
              subst hok
              simp [PayloadShape, keys, hv]
            | some v =>
              simp [ios_debug_build, step_set_breakpoint, step_expression,
                step_variables, step_select_thread, hv] at hok
              subst hok
              simp [PayloadShape, keys, hv]
          · by_cases h6 : action = "select_thread"
            · subst h6
              cases ht : f.threadId with
              | none =>
                simp [ios_debug_build, step_set_breakpoint, step_expression,
                  step_variables, step_select_thread, ht] at hok
              | some t =>
                simp [ios_debug_build, step_set_breakpoint, step_expression,
                  step_variables, step_select_thread, ht] at hok
                subst hok
                simp [PayloadShape, keys, ht]
            · simp [ios_debug_build, step_set_breakpoint, step_expression,
                step_variables, step_select_thread, h1, h2, h3, h4, h5, h6] at hok
              subst hok
              simp [PayloadShape, keys, h1, h2, h3, h4, h5, h6]

/-- Witness for C2: the `set_breakpoint` request with `file="a.swift"`,
`line=10` satisfies the shape invariant. -/
theorem build_payload_shape_witness :
    PayloadShape "set_breakpoint" { file := some "a.swift", line := some 10 }
      [("action", JVal.s "set_breakpoint"), ("file", JVal.s "a.swift"),
       ("line", JVal.i 10)] :=
  build_payload_shape "set_breakpoint" { file := some "a.swift", line := some 10 }
    _ rfl

/-- The post-network tail of the call can never produce a validation
error: `ValueError` is raised only by the payload builder. -/
theorem handleResponse_not_validation (out : NetOutcome) (msg : String) :
    handleResponse out ≠ Except.error (DebugError.validation msg) := by
  cases out with
  | timeout => simp [handleResponse]
  | connFailure => simp [handleResponse]
  | response status decoded =>
    by_cases hr : raise_for_status_raises status = true
    · simp [handleResponse, hr]
    · cases decoded with
      | some j => simp [handleResponse, hr]
      | none => simp [handleResponse, hr]

/-- C7: whenever the call fails with a ValidationError, no HTTP request
was issued — all per-action validation happens before the single POST. -/
theorem validation_error_means_no_network
    (net : Endpoint → HttpRequest → NetOutcome) (action : String) (f : Fields)
    (ep : Endpoint) (msg : String)
    (h : (ios_debug_command net action f ep).1 =
        Except.error (DebugError.validation msg)) :
    (ios_debug_command net action f ep).2 = [] := by
  cases hb : ios_debug_build action f with
  | error e => simp [ios_debug_command, hb]
  | ok payload =>
    exfalso
    simp [ios_debug_command, hb] at h
    exact handleResponse_not_validation _ msg h

/-- Witness for C7: `select_thread` without `threadId` fails validation
against a healthy service, and the request trace is empty. -/
theorem validation_error_means_no_network_witness :
    (ios_debug_command netOk "select_thread" {} ep0).1 =
      Except.error (DebugError.validation "select_thread requires --thread-id") ∧
    (ios_debug_command netOk "select_thread" {} ep0).2 = [] :=
  ⟨rfl, validation_error_means_no_network netOk "select_thread" {} ep0
    "select_thread requires --thread-id" rfl⟩

/-- C8 counterexample: `304 Not Modified` is not a 2xx status, yet the
call does not fail with a TransportError — `raise_for_status` lets it
through and the response body is decoded and returned as the result. -/
theorem status_304_not_transport_error :
    (304 < 200 ∨ 300 ≤ 304) ∧
    (ios_debug_command net304 "variables" {} ep0).1 = Except.ok (Json.obj []) :=
  ⟨Or.inr (by decide), rfl⟩

/-- C8 (amended): when the exchange completes with a 4xx or 5xx status,
the call fails with a TransportError carrying the status and the decoded
error detail from the body, the body is not returned as a CommandResult,
and exactly one HTTP request was issued (no retry). -/
theorem http_error_status_fails
    (net : Endpoint → HttpRequest → NetOutcome) (action : String) (f : Fields)
    (ep : Endpoint) (status : Nat) (decoded : Option Json) (payload : Payload)
    (hb : ios_debug_build action f = Except.ok payload)
    (hn : net ep { url := commandUrl ep, body := payload } =
        NetOutcome.response status decoded)
    (h4 : 400 ≤ status) (h6 : status < 600) :
    (ios_debug_command net action f ep).1 =
      Except.error (DebugError.httpStatus status decoded) ∧
    (ios_debug_command net action f ep).2 =
      [{ url := commandUrl ep, body := payload }] := by
  simp [ios_debug_command, hb, hn, handleResponse, raise_for_status_raises, h4, h6]

/-- Witness for C8: HTTP 500 with body `{"error":"boom"}` yields the
TransportError with status 500 and that detail, after one request. -/
theorem http_error_status_fails_witness :
    (ios_debug_command net500 "variables" {} ep0).1 =
      Except.error (DebugError.httpStatus 500
        (some (Json.obj [("error", Json.str "boom")]))) ∧
    (ios_debug_command net500 "variables" {} ep0).2 =
      [{ url := commandUrl ep0, body := [("action", JVal.s "variables")] }] :=
  http_error_status_fails net500 "variables" {} ep0 500
    (some (Json.obj [("error", Json.str "boom")]))
    [("action", JVal.s "variables")] rfl rfl (by decide) (by decide)

/-- C10: the request bodies sent over the wire depend only on the action
and the fields — two invocations differing only in host, port or timeout
post identical payloads. -/
theorem payload_independent_of_endpoint
    (net : Endpoint → HttpRequest → NetOutcome) (action : String) (f : Fields)
    (ep1 ep2 : Endpoint) :
    (ios_debug_command net action f ep1).2.map HttpRequest.body =
      (ios_debug_command net action f ep2).2.map HttpRequest.body := by
  cases hb : ios_debug_build action f <;> simp [ios_debug_command, hb]
